import Mathlib

/-!
# socks5-server: `server.go`

A shallow embedding of `src/server.go` (the process entry point `main` and the
diagnostic probe `runHealthCheck`) together with the properties of the
natural-language specification that concern them.

Modelling conventions

* A Go `string` is a Lean `String`; `len(s)` is its UTF-8 byte size and
  `[]byte(s)` is its UTF-8 encoding, a list of bytes (`Nat` below 256).
* `byte(n)` on an `int` is `n % 256`.
* The process environment is a partial map from variable names to values
  (`os.LookupEnv`); `os.Getenv` reads an unset variable as `""`.
* The external collaborators of `main` (the `go-socks5` library, `net.ParseIP`,
  `PermitDestAddrPattern`) are parameters; what `main` does with them is
  recorded as the list of calls it makes, in order.
* The TCP peer of `runHealthCheck` is a script giving the outcome of every
  network operation the probe may perform.
-/

namespace Socks5Server

/-! ## Environment -/

/-- The process environment: `none` for a variable that is not set. -/
abbrev Env := String → Option String

/-- Go `os.Getenv`: the value of the variable, `""` when it is not set. -/
def Getenv (env : Env) (key : String) : String :=
  match env key with
  | some v => v
  | none => ""

/-- The environment in which no variable is set. -/
def emptyEnv : Env := fun _ => none

/-! ## Configuration (`params`, lines 13-21) -/

/-- The struct `params`. -/
structure params where
  User : String
  Password : String
  Port : String
  AllowedDestFqdn : String
  AllowedIPs : List String
  ListenIP : String
  RequireAuth : Bool
  deriving DecidableEq, Repr

/-- Library `env`: the raw value of a tagged field, the variable when it is set
and the `envDefault` otherwise. -/
def envGet (env : Env) (key dflt : String) : String :=
  match env key with
  | some v => v
  | none => dflt

/-- Go `strconv.ParseBool`. -/
def ParseBool (s : String) : Option Bool :=
  if s = "1" ∨ s = "t" ∨ s = "T" ∨ s = "TRUE" ∨ s = "true" ∨ s = "True" then some true
  else if s = "0" ∨ s = "f" ∨ s = "F" ∨ s = "FALSE" ∨ s = "false" ∨ s = "False" then some false
  else none

/-- The call `env.Parse(&cfg)` on a zero `params{}` (lines 30-31). A field whose
raw value is `""` keeps its zero value; a `bool` that does not parse keeps
`false` (the error is only logged by `main`, lines 32-34). -/
def envParse (env : Env) : params :=
  { User := envGet env "PROXY_USER" ""
    Password := envGet env "PROXY_PASSWORD" ""
    Port := envGet env "PROXY_PORT" "1080"
    AllowedDestFqdn := envGet env "ALLOWED_DEST_FQDN" ""
    AllowedIPs :=
      let v := envGet env "ALLOWED_IPS" ""
      if v = "" then [] else v.splitOn ","
    ListenIP := envGet env "PROXY_LISTEN_IP" "0.0.0.0"
    RequireAuth :=
      let v := envGet env "REQUIRE_AUTH" "true"
      if v = "" then false else
        match ParseBool v with
        | some b => b
        | none => false }

/-! ## The `go-socks5` configuration -/

/-- Go `net.IP`: a byte slice, `none` for the nil slice. -/
abbrev IP := Option (List Nat)

/-- Library `socks5.StaticCredentials`, a `map[string]string`, as the list of
its entries. -/
abbrev StaticCredentials := List (String × String)

/-- Lookup `creds[user]` in a credential map. -/
def StaticCredentials.get (creds : StaticCredentials) (user : String) : Option String :=
  (creds.find? (fun e => e.1 = user)).map (fun e => e.2)

/-- Library `socks5.Authenticator`: the two implementations of the library. -/
inductive Authenticator where
  | NoAuthAuthenticator
  | UserPassAuthenticator (Credentials : StaticCredentials)
  deriving DecidableEq, Repr

/-- The fields of `socks5.Config` that `main` assigns (the `Logger` field, a
handle on standard output, is left out). `Rules` is `none` for the nil
interface; `ρ` is the type of rule sets. -/
structure Config (ρ : Type) where
  AuthMethods : List Authenticator
  Rules : Option ρ
  deriving DecidableEq, Repr

/-- The external collaborators of `main`: `σ` is the type of servers. -/
structure Lib (ρ σ : Type) where
  /-- Library `socks5.New`. -/
  New : Config ρ → Except String σ
  /-- Function `PermitDestAddrPattern` of this package. -/
  PermitDestAddrPattern : String → ρ
  /-- Go `net.ParseIP`. -/
  ParseIP : String → IP
  /-- Method `SetIPWhitelist` of the server. -/
  SetIPWhitelist : σ → List IP → σ
  /-- Method `ListenAndServe` of the server: `none` while it serves, the error
  when it returns. -/
  ListenAndServe : σ → String → String → Option String

/-- The calls `main` makes, in the order of the source. -/
inductive Call (ρ : Type) where
  /-- Line 43: `log.Fatalln`, the process exits. -/
  | FatalNoCredentials
  /-- Line 51: `log.Println` of the warning. -/
  | WarnNoAuthentication
  /-- Line 58: `socks5.New(socks5conf)`. -/
  | New (conf : Config ρ)
  /-- Lines 60 and 79: `log.Fatal(err)`, the process exits. -/
  | Fatal (err : String)
  /-- Line 69: `server.SetIPWhitelist(whitelist)`. -/
  | SetIPWhitelist (whitelist : List IP)
  /-- Line 77: `log.Printf` of the listen address. -/
  | LogStart (listenAddr : String)
  /-- Line 78: `server.ListenAndServe("tcp", listenAddr)`. -/
  | ListenAndServe (network : String) (listenAddr : String)
  deriving DecidableEq, Repr

/-! ## `main` (lines 23-81) -/

/-- Lines 66-68: the loop `for i, ip := range cfg.AllowedIPs` writing
`whitelist[i] = net.ParseIP(ip)`, from index `i` on. -/
def whitelistLoop (ParseIP : String → IP) : List String → Nat → List IP → List IP
  | [], _, whitelist => whitelist
  | ip :: rest, i, whitelist => whitelistLoop ParseIP rest (i + 1) (whitelist.set i (ParseIP ip))

/-- Lines 65-68: `make([]net.IP, len(cfg.AllowedIPs))` filled by the loop. -/
def makeWhitelist (ParseIP : String → IP) (AllowedIPs : List String) : List IP :=
  whitelistLoop ParseIP AllowedIPs 0 (List.replicate AllowedIPs.length none)

/-- Lines 72-75: the address `main` listens on. -/
def listenAddr (cfg : params) : String :=
  let listenAddr := ":" ++ cfg.Port
  if cfg.ListenIP ≠ "" then cfg.ListenIP ++ ":" ++ cfg.Port else listenAddr

/-- Lines 54-80 of `main`: from the destination rule on, with the
configuration `socks5conf` built so far and the calls `done` made so far. -/
def mainFromRules {ρ σ : Type} (lib : Lib ρ σ) (cfg : params) (socks5conf : Config ρ)
    (done : List (Call ρ)) : List (Call ρ) :=
  let socks5conf :=
    if cfg.AllowedDestFqdn ≠ "" then
      { socks5conf with Rules := some (lib.PermitDestAddrPattern cfg.AllowedDestFqdn) }
    else socks5conf
  match lib.New socks5conf with
  | .error err => done ++ [.New socks5conf, .Fatal err]
  | .ok server =>
    let done := done ++ [.New socks5conf]
    let (server, done) :=
      if cfg.AllowedIPs.length > 0 then
        let whitelist := makeWhitelist lib.ParseIP cfg.AllowedIPs
        (lib.SetIPWhitelist server whitelist, done ++ [.SetIPWhitelist whitelist])
      else (server, done)
    let listenAddr := listenAddr cfg
    let done := done ++ [.LogStart listenAddr, .ListenAndServe "tcp" listenAddr]
    match lib.ListenAndServe server "tcp" listenAddr with
    | some err => done ++ [.Fatal err]
    | none => done

/-- Lines 36-80 of `main`: the server start-up on the parsed configuration
`cfg`. The result is the list of calls made. -/
def mainServer {ρ σ : Type} (lib : Lib ρ σ) (cfg : params) : List (Call ρ) :=
  let socks5conf : Config ρ := { AuthMethods := [], Rules := none }
  if cfg.RequireAuth then
    if cfg.User = "" ∨ cfg.Password = "" then
      [.FatalNoCredentials]
    else
      let creds : StaticCredentials := [(cfg.User, cfg.Password)]
      let cator := Authenticator.UserPassAuthenticator creds
      mainFromRules lib cfg { socks5conf with AuthMethods := [cator] } []
  else
    mainFromRules lib cfg socks5conf [.WarnNoAuthentication]

/-! ### Observations on a run of `main` -/

/-- The configuration handed to `socks5.New`, if that call is made. -/
def builtConfig {ρ : Type} : List (Call ρ) → Option (Config ρ)
  | [] => none
  | .New conf :: _ => some conf
  | _ :: rest => builtConfig rest

/-- The allow-list handed to `SetIPWhitelist`, if that call is made. -/
def installedWhitelist {ρ : Type} : List (Call ρ) → Option (List IP)
  | [] => none
  | .SetIPWhitelist whitelist :: _ => some whitelist
  | _ :: rest => installedWhitelist rest

/-- The address handed to `ListenAndServe`, if that call is made. -/
def boundAddr {ρ : Type} : List (Call ρ) → Option String
  | [] => none
  | .ListenAndServe _ addr :: _ => some addr
  | _ :: rest => boundAddr rest

/-! ## `runHealthCheck` (lines 83-173) -/

/-- Go `len(s)` on a string: its number of bytes. -/
def len (s : String) : Nat := s.utf8ByteSize

/-- Go `[]byte(s)`: the bytes of a string. -/
def bytes (s : String) : List Nat := s.toUTF8.data.toList.map UInt8.toNat

/-- Go `byte(n)` on a non-negative `int`: the low eight bits. -/
def byte (n : Nat) : Nat := n % 256

/-- The TCP peer of the probe: the outcome of each network operation that
`runHealthCheck` may perform. An error is `some err`/`.error err`; a read
delivers the bytes received. -/
structure Peer where
  /-- Line 100: `net.DialTimeout("tcp", addr, 2*time.Second)`. -/
  DialTimeout : String → Option String
  /-- Line 111: `conn.Write(greeting)`. -/
  WriteGreeting : Option String
  /-- Line 121: `conn.Read(response)`. -/
  ReadResponse : Except String (List Nat)
  /-- Line 148: `conn.Write(authRequest)`. -/
  WriteAuth : Option String
  /-- Line 158: `conn.Read(authResponse)`. -/
  ReadAuthResponse : Except String (List Nat)

/-- The contents of a buffer after a successful `conn.Read(buf)` that received
`data`: the bytes received overwrite the front of the buffer, at most
`len(buf)` of them. -/
def readInto (buf data : List Nat) : List Nat :=
  data.take buf.length ++ buf.drop data.length

/-- The failure messages of `runHealthCheck`, each followed by `os.Exit(1)`. -/
inductive Failure where
  /-- Line 102. -/
  | CannotConnect (addr err : String)
  /-- Line 113. -/
  | CannotWriteGreeting (err : String)
  /-- Line 123. -/
  | CannotReadResponse (err : String)
  /-- Line 129. -/
  | InvalidVersion (version : Nat)
  /-- Line 136. -/
  | CredentialsNotSet
  /-- Line 150. -/
  | CannotWriteAuth (err : String)
  /-- Line 160. -/
  | CannotReadAuthResponse (err : String)
  /-- Line 166. -/
  | AuthenticationFailed
  deriving DecidableEq, Repr

/-- A run of `runHealthCheck`: the address dialled, the frames handed to
`conn.Write` in order, the failure reported (`none` for "Health check passed")
and the exit status of the process. -/
structure HealthRun where
  addr : String
  written : List (List Nat)
  failure : Option Failure
  exit : Nat
  deriving DecidableEq, Repr

/-- Lines 142-146: the username/password request. -/
def authRequest (user password : String) : List Nat :=
  let authRequest := [0x01]
  let authRequest := authRequest ++ [byte (len user)]
  let authRequest := authRequest ++ bytes user
  let authRequest := authRequest ++ [byte (len password)]
  let authRequest := authRequest ++ bytes password
  authRequest

/-- The function `runHealthCheck`. -/
def runHealthCheck (env : Env) (peer : Peer) : HealthRun :=
  let port := Getenv env "PROXY_PORT"
  let port := if port = "" then "1080" else port
  let listenIP := Getenv env "PROXY_LISTEN_IP"
  let listenIP := if listenIP = "" then "127.0.0.1" else listenIP
  let user := Getenv env "PROXY_USER"
  let password := Getenv env "PROXY_PASSWORD"
  let addr := listenIP ++ ":" ++ port
  match peer.DialTimeout addr with
  | some err => ⟨addr, [], some (.CannotConnect addr err), 1⟩
  | none =>
  let greeting := [0x05, 0x02, 0x00, 0x02]
  match peer.WriteGreeting with
  | some err => ⟨addr, [greeting], some (.CannotWriteGreeting err), 1⟩
  | none =>
  match peer.ReadResponse with
  | .error err => ⟨addr, [greeting], some (.CannotReadResponse err), 1⟩
  | .ok data =>
  let response := readInto [0, 0] data
  if response.getD 0 0 ≠ 0x05 then
    ⟨addr, [greeting], some (.InvalidVersion (response.getD 0 0)), 1⟩
  else if response.getD 1 0 = 0x02 then
    if user = "" ∨ password = "" then
      ⟨addr, [greeting], some .CredentialsNotSet, 1⟩
    else
      let authRequest := authRequest user password
      match peer.WriteAuth with
      | some err => ⟨addr, [greeting, authRequest], some (.CannotWriteAuth err), 1⟩
      | none =>
      match peer.ReadAuthResponse with
      | .error err => ⟨addr, [greeting, authRequest], some (.CannotReadAuthResponse err), 1⟩
      | .ok data =>
      let authResponse := readInto [0, 0] data
      if authResponse.getD 1 0 ≠ 0x00 then
        ⟨addr, [greeting, authRequest], some .AuthenticationFailed, 1⟩
      else
        ⟨addr, [greeting, authRequest], none, 0⟩
  else
    ⟨addr, [greeting], none, 0⟩

/-- The outcome of the process: the probe in health-check mode, the calls of
the server start-up otherwise. -/
inductive Outcome (ρ : Type) where
  | HealthCheck (run : HealthRun)
  | Server (calls : List (Call ρ))

/-- The function `main`: lines 25-28 select the health-check mode, lines 30-31
parse the environment, the rest is `mainServer`. -/
def main {ρ σ : Type} (lib : Lib ρ σ) (Args : List String) (env : Env) (peer : Peer) :
    Outcome ρ :=
  if Args.length > 1 ∧ Args.getD 1 "" = "--healthcheck" then
    .HealthCheck (runHealthCheck env peer)
  else
    .Server (mainServer lib (envParse env))

/-! ## The wire format of the specification -/

/-- The layout `[0x01, ULEN, USER(ULEN), PLEN, PASS(PLEN)]` of the
specification, read from the front: the version byte, `ULEN`, `ULEN` bytes of
user, `PLEN`, `PLEN` bytes of password, and nothing after them. The result is
the user and the password. -/
def decodeAuthRequest : List Nat → Option (List Nat × List Nat)
  | ver :: ulen :: rest =>
    if ver ≠ 0x01 then none
    else if rest.length < ulen then none
    else
      match rest.drop ulen with
      | plen :: rest2 =>
        if rest2.length = plen then some (rest.take ulen, rest2) else none
      | [] => none
  | _ => none

/-- The protocol-level success of the probe's handshake, in the words of the
specification: the method-selection reply is `[0x05, m]` with `m` one of the
methods offered (`0x00` or `0x02`) and, when `m = 0x02`, the status of the auth
reply is `0x00`. -/
def handshakeSucceeded (response authResponse : List Nat) : Prop :=
  response.getD 0 0 = 0x05 ∧
    (response.getD 1 0 = 0x00 ∨ (response.getD 1 0 = 0x02 ∧ authResponse.getD 1 0 = 0x00))

instance (response authResponse : List Nat) :
    Decidable (handshakeSucceeded response authResponse) := by
  unfold handshakeSucceeded; infer_instance

/-! ## Concrete collaborators, peers and environments -/

/-- A toy `net.ParseIP` that knows two addresses. -/
def demoParseIP (s : String) : IP :=
  if s = "10.0.0.5" then some [10, 0, 0, 5]
  else if s = "127.0.0.1" then some [127, 0, 0, 1]
  else none

/-- Collaborators whose server is the configuration it was built from and the
allow-list installed on it; `New` succeeds and `ListenAndServe` keeps serving. -/
def demoLib : Lib String (Config String × Option (List IP)) where
  New := fun conf => .ok (conf, none)
  PermitDestAddrPattern := fun pattern => pattern
  ParseIP := demoParseIP
  SetIPWhitelist := fun server whitelist => (server.1, some whitelist)
  ListenAndServe := fun _ _ _ => none

/-- The configuration of the scenario of the specification: credentials
`(alice, secret)`, pattern `*.example.com`, allow-list `[10.0.0.5]`. -/
def demoCfg : params :=
  { User := "alice", Password := "secret", Port := "1080",
    AllowedDestFqdn := "*.example.com", AllowedIPs := ["10.0.0.5"],
    ListenIP := "0.0.0.0", RequireAuth := true }

/-- A peer on which every operation succeeds: it selects "no authentication"
and would accept the credentials. -/
def demoPeer : Peer where
  DialTimeout := fun _ => none
  WriteGreeting := none
  ReadResponse := .ok [0x05, 0x00]
  WriteAuth := none
  ReadAuthResponse := .ok [0x01, 0x00]

/-- An environment that sets the variables of the scenario of the
specification, the listen address being `10.0.0.5`. -/
def demoEnv : Env := fun key =>
  if key = "PROXY_USER" then some "alice"
  else if key = "PROXY_PASSWORD" then some "secret"
  else if key = "PROXY_LISTEN_IP" then some "10.0.0.5"
  else if key = "PROXY_PORT" then some "1080"
  else none

/-- A peer that answers the greeting with `[0x05, 0xFF]`, "no acceptable
method"; every operation succeeds. -/
def refusingPeer : Peer where
  DialTimeout := fun _ => none
  WriteGreeting := none
  ReadResponse := .ok [0x05, 0xFF]
  WriteAuth := none
  ReadAuthResponse := .ok [0x01, 0x00]

/-- A user name of 256 bytes. -/
def longUser : String := String.mk (List.replicate 256 'a')

/-- An environment whose user name has 256 bytes. -/
def longUserEnv : Env := fun key =>
  if key = "PROXY_USER" then some longUser
  else if key = "PROXY_PASSWORD" then some "p"
  else none

/-- A peer that selects username/password and accepts the credentials; every
operation succeeds. -/
def authPeer : Peer where
  DialTimeout := fun _ => none
  WriteGreeting := none
  ReadResponse := .ok [0x05, 0x02]
  WriteAuth := none
  ReadAuthResponse := .ok [0x01, 0x00]

/-- An environment that sets the credentials and nothing else. -/
def credentialsEnv : Env := fun key =>
  if key = "PROXY_USER" then some "alice"
  else if key = "PROXY_PASSWORD" then some "secret"
  else none

/-! ## Lemmas on the runs of `main` -/

theorem builtConfig_append {ρ : Type} (xs ys : List (Call ρ)) :
    builtConfig (xs ++ ys) = (builtConfig xs).orElse (fun _ => builtConfig ys) := by
  induction xs with
  | nil => simp [builtConfig]
  | cons x xs ih => cases x <;> simp [builtConfig, ih]

theorem boundAddr_append {ρ : Type} (xs ys : List (Call ρ)) :
    boundAddr (xs ++ ys) = (boundAddr xs).orElse (fun _ => boundAddr ys) := by
  induction xs with
  | nil => simp [boundAddr]
  | cons x xs ih => cases x <;> simp [boundAddr, ih]

theorem installedWhitelist_append {ρ : Type} (xs ys : List (Call ρ)) :
    installedWhitelist (xs ++ ys) =
      (installedWhitelist xs).orElse (fun _ => installedWhitelist ys) := by
  induction xs with
  | nil => simp [installedWhitelist]
  | cons x xs ih => cases x <;> simp [installedWhitelist, ih]

/-- The configuration `mainFromRules` hands to `socks5.New`. -/
theorem builtConfig_mainFromRules {ρ σ : Type} (lib : Lib ρ σ) (cfg : params)
    (conf : Config ρ) (done : List (Call ρ)) (hdone : builtConfig done = none) :
    builtConfig (mainFromRules lib cfg conf done) =
      some (if cfg.AllowedDestFqdn ≠ "" then
        { conf with Rules := some (lib.PermitDestAddrPattern cfg.AllowedDestFqdn) }
        else conf) := by
  unfold mainFromRules
  simp only []
  split
  · simp [builtConfig_append, hdone, builtConfig]
  · split <;> split <;>
      simp [builtConfig_append, hdone, builtConfig]

/-- The address `mainFromRules` listens on once `socks5.New` has returned a
server. -/
theorem boundAddr_mainFromRules {ρ σ : Type} (lib : Lib ρ σ) (cfg : params)
    (conf : Config ρ) (done : List (Call ρ)) (hdone : boundAddr done = none) (server : σ)
    (hnew : lib.New (if cfg.AllowedDestFqdn ≠ "" then
        { conf with Rules := some (lib.PermitDestAddrPattern cfg.AllowedDestFqdn) }
        else conf) = .ok server) :
    boundAddr (mainFromRules lib cfg conf done) = some (listenAddr cfg) := by
  unfold mainFromRules
  simp only [hnew]
  split <;> split <;> simp [boundAddr_append, hdone, boundAddr]

/-- No listener is bound when `socks5.New` fails. -/
theorem boundAddr_mainFromRules_error {ρ σ : Type} (lib : Lib ρ σ) (cfg : params)
    (conf : Config ρ) (done : List (Call ρ)) (hdone : boundAddr done = none) (err : String)
    (hnew : lib.New (if cfg.AllowedDestFqdn ≠ "" then
        { conf with Rules := some (lib.PermitDestAddrPattern cfg.AllowedDestFqdn) }
        else conf) = .error err) :
    boundAddr (mainFromRules lib cfg conf done) = none := by
  unfold mainFromRules
  simp only [hnew]
  simp [boundAddr_append, hdone, boundAddr]

/-- The allow-list `mainFromRules` installs once `socks5.New` has returned a
server. -/
theorem installedWhitelist_mainFromRules {ρ σ : Type} (lib : Lib ρ σ) (cfg : params)
    (conf : Config ρ) (done : List (Call ρ)) (hdone : installedWhitelist done = none)
    (server : σ)
    (hnew : lib.New (if cfg.AllowedDestFqdn ≠ "" then
        { conf with Rules := some (lib.PermitDestAddrPattern cfg.AllowedDestFqdn) }
        else conf) = .ok server) :
    installedWhitelist (mainFromRules lib cfg conf done) =
      if cfg.AllowedIPs.length > 0 then some (makeWhitelist lib.ParseIP cfg.AllowedIPs)
      else none := by
  unfold mainFromRules
  simp only [hnew]
  split <;> split <;> simp_all [installedWhitelist_append, installedWhitelist]

/-- The call of line 43 is not among the calls of `mainFromRules`. -/
theorem fatalNoCredentials_not_mem_mainFromRules {ρ σ : Type} (lib : Lib ρ σ) (cfg : params)
    (conf : Config ρ) (done : List (Call ρ)) (hdone : Call.FatalNoCredentials ∉ done) :
    Call.FatalNoCredentials ∉ mainFromRules lib cfg conf done := by
  unfold mainFromRules
  simp only []
  split
  · simp [hdone]
  · split <;> split <;> simp [hdone]

/-- The loop of lines 66-68 overwrites the entries `i .. i + len - 1` with the
parsed addresses and leaves the others. -/
theorem whitelistLoop_eq (ParseIP : String → IP) (ips : List String) :
    ∀ (i : Nat) (whitelist : List IP), i + ips.length ≤ whitelist.length →
      whitelistLoop ParseIP ips i whitelist =
        whitelist.take i ++ ips.map ParseIP ++ whitelist.drop (i + ips.length) := by
  induction ips with
  | nil => intro i whitelist _; simp [whitelistLoop]
  | cons ip rest ih =>
    intro i whitelist h
    simp only [List.length_cons] at h
    have hi : i < whitelist.length := by omega
    rw [whitelistLoop, ih (i + 1) _ (by simp; omega)]
    have hfront : (whitelist.set i (ParseIP ip)).take i = whitelist.take i := by
      apply List.ext_getElem?
      intro j
      rw [List.getElem?_take, List.getElem?_take]
      split
      · rw [List.getElem?_set_ne (by omega)]
      · rfl
    have htake : (whitelist.set i (ParseIP ip)).take (i + 1) =
        whitelist.take i ++ [ParseIP ip] := by
      rw [List.take_succ, hfront]
      simp [hi]
    have hdrop : (whitelist.set i (ParseIP ip)).drop (i + 1 + rest.length) =
        whitelist.drop (i + (rest.length + 1)) := by
      rw [List.drop_set_of_lt _ _ (by omega)]
      congr 1; omega
    rw [htake, hdrop]; simp

/-- The allow-list built by lines 65-68 is the list of the parsed addresses. -/
theorem makeWhitelist_eq (ParseIP : String → IP) (ips : List String) :
    makeWhitelist ParseIP ips = ips.map ParseIP := by
  unfold makeWhitelist
  rw [whitelistLoop_eq ParseIP ips 0 _ (by simp)]
  simp

/-! ## Start-up of the server -/

/-- C1: start-up is refused, by the fatal exit of line 43 and before
`socks5.New` or `ListenAndServe` is called, if and only if `RequireAuth` is
true and `User` or `Password` is empty; in every other configuration `main`
builds the configuration, hands it to `socks5.New` and, with the server it
returns, calls `ListenAndServe` on the listen address. -/
theorem C1_startup_refused_iff {ρ σ : Type} (lib : Lib ρ σ) (cfg : params) :
    (Call.FatalNoCredentials ∈ mainServer lib cfg ↔
      (cfg.RequireAuth = true ∧ (cfg.User = "" ∨ cfg.Password = ""))) ∧
    ((cfg.RequireAuth = true ∧ (cfg.User = "" ∨ cfg.Password = "")) →
      mainServer lib cfg = [Call.FatalNoCredentials] ∧
        builtConfig (mainServer lib cfg) = none ∧ boundAddr (mainServer lib cfg) = none) ∧
    (¬ (cfg.RequireAuth = true ∧ (cfg.User = "" ∨ cfg.Password = "")) →
      ∃ conf, builtConfig (mainServer lib cfg) = some conf ∧
        ∀ server, lib.New conf = .ok server →
          boundAddr (mainServer lib cfg) = some (listenAddr cfg)) := by
  by_cases hreq : cfg.RequireAuth = true
  · by_cases hcred : cfg.User = "" ∨ cfg.Password = ""
    · have hrun : mainServer lib cfg = [Call.FatalNoCredentials] := by
        simp [mainServer, hreq, hcred]
      refine ⟨?_, ?_, ?_⟩
      · simp [hrun, hreq, hcred]
      · intro _
        simp [hrun, builtConfig, boundAddr]
      · intro h
        exact absurd ⟨hreq, hcred⟩ h
    · have hrun : mainServer lib cfg =
          mainFromRules lib cfg
            { AuthMethods := [Authenticator.UserPassAuthenticator [(cfg.User, cfg.Password)]],
              Rules := none } [] := by
        simp [mainServer, hreq, hcred]
      refine ⟨?_, ?_, ?_⟩
      · rw [hrun]
        constructor
        · intro h
          exact absurd h (fatalNoCredentials_not_mem_mainFromRules lib cfg _ [] (by simp))
        · intro h
          exact absurd h.2 hcred
      · intro h
        exact absurd h.2 hcred
      · intro _
        rw [hrun]
        refine ⟨_, builtConfig_mainFromRules lib cfg _ [] rfl, ?_⟩
        intro server hnew
        exact boundAddr_mainFromRules lib cfg _ [] rfl server hnew
  · have hrun : mainServer lib cfg =
        mainFromRules lib cfg { AuthMethods := [], Rules := none }
          [Call.WarnNoAuthentication] := by
      simp [mainServer, hreq]
    refine ⟨?_, ?_, ?_⟩
    · rw [hrun]
      constructor
      · intro h
        exact absurd h (fatalNoCredentials_not_mem_mainFromRules lib cfg _ _ (by simp))
      · intro h
        exact absurd h.1 hreq
    · intro h
      exact absurd h.1 hreq
    · intro _
      rw [hrun]
      refine ⟨_, builtConfig_mainFromRules lib cfg _ _ rfl, ?_⟩
      intro server hnew
      exact boundAddr_mainFromRules lib cfg _ _ rfl server hnew

/-- C1, on the scenario of the specification: with credentials the server
listens on `0.0.0.0:1080`; with the password removed start-up is refused. -/
theorem C1_startup_refused_iff_witness :
    boundAddr (mainServer demoLib demoCfg) = some "0.0.0.0:1080" ∧
      mainServer demoLib { demoCfg with Password := "" } = [Call.FatalNoCredentials] := by
  constructor
  · obtain ⟨conf, _, hlisten⟩ :=
      (C1_startup_refused_iff demoLib demoCfg).2.2 (by decide)
    exact hlisten (conf, none) rfl
  · exact ((C1_startup_refused_iff demoLib { demoCfg with Password := "" }).2.1
      (by decide)).1

/-- The run of `mainServer` when start-up is not refused: the configuration
built from the credentials is passed on to `mainFromRules`. -/
theorem mainServer_eq_mainFromRules {ρ σ : Type} (lib : Lib ρ σ) (cfg : params)
    (hstart : ¬ (cfg.RequireAuth = true ∧ (cfg.User = "" ∨ cfg.Password = ""))) :
    mainServer lib cfg =
      if cfg.RequireAuth = true then
        mainFromRules lib cfg
          { AuthMethods := [Authenticator.UserPassAuthenticator [(cfg.User, cfg.Password)]],
            Rules := none } []
      else
        mainFromRules lib cfg { AuthMethods := [], Rules := none }
          [Call.WarnNoAuthentication] := by
  by_cases hreq : cfg.RequireAuth = true
  · have hcred : ¬ (cfg.User = "" ∨ cfg.Password = "") := fun h => hstart ⟨hreq, h⟩
    simp [mainServer, hreq, hcred]
  · simp [mainServer, hreq]

/-- When start-up is not refused, `main` hands a configuration to
`socks5.New`, and listens on the listen address if that call returns a server. -/
theorem run_of_started {ρ σ : Type} (lib : Lib ρ σ) (cfg : params)
    (hstart : ¬ (cfg.RequireAuth = true ∧ (cfg.User = "" ∨ cfg.Password = ""))) :
    ∃ conf, builtConfig (mainServer lib cfg) = some conf ∧
      ∀ server, lib.New conf = .ok server →
        boundAddr (mainServer lib cfg) = some (listenAddr cfg) := by
  rw [mainServer_eq_mainFromRules lib cfg hstart]
  split
  · exact ⟨_, builtConfig_mainFromRules lib cfg _ [] rfl,
      fun server hnew => boundAddr_mainFromRules lib cfg _ [] rfl server hnew⟩
  · exact ⟨_, builtConfig_mainFromRules lib cfg _ [Call.WarnNoAuthentication] rfl,
      fun server hnew =>
        boundAddr_mainFromRules lib cfg _ [Call.WarnNoAuthentication] rfl server hnew⟩

/-- When `socks5.New` fails on the configuration built, no listener is bound. -/
theorem run_of_failed_New {ρ σ : Type} (lib : Lib ρ σ) (cfg : params)
    (hstart : ¬ (cfg.RequireAuth = true ∧ (cfg.User = "" ∨ cfg.Password = "")))
    (conf : Config ρ) (err : String) (hnew : lib.New conf = .error err)
    (hconf : builtConfig (mainServer lib cfg) = some conf) :
    boundAddr (mainServer lib cfg) = none := by
  rw [mainServer_eq_mainFromRules lib cfg hstart] at hconf ⊢
  split at hconf
  · rename_i hreq
    rw [builtConfig_mainFromRules lib cfg _ [] rfl] at hconf
    rw [if_pos hreq]
    exact boundAddr_mainFromRules_error lib cfg _ [] rfl err
      (by rw [Option.some.inj hconf]; exact hnew)
  · rename_i hreq
    rw [builtConfig_mainFromRules lib cfg _ [Call.WarnNoAuthentication] rfl] at hconf
    rw [if_neg hreq]
    exact boundAddr_mainFromRules_error lib cfg _ [Call.WarnNoAuthentication] rfl err
      (by rw [Option.some.inj hconf]; exact hnew)

/-- C2, as the specification states it, fails: with `RequireAuth` false and the
credentials `(alice, secret)` both set, the configuration built by `main` has
no authentication method at all. -/
theorem C2_counterexample :
    ({ demoCfg with RequireAuth := false } : params).User ≠ "" ∧
    ({ demoCfg with RequireAuth := false } : params).Password ≠ "" ∧
    (builtConfig (mainServer demoLib { demoCfg with RequireAuth := false })).map
      (fun conf => conf.AuthMethods) = some [] ∧
    (builtConfig (mainServer demoLib { demoCfg with RequireAuth := false })).map
      (fun conf => conf.AuthMethods) ≠
        some [Authenticator.UserPassAuthenticator [("alice", "secret")]] := by
  decide

/-- C2, amended: when `RequireAuth` is true and `User` and `Password` are both
non-empty, the configuration built by `main` has exactly one authentication
method, the `UserPassAuthenticator` whose credential store has the single entry
`User ↦ Password`: looking up `User` gives `Password` and looking up any other
name gives nothing. -/
theorem C2_userpass_only_when_required {ρ σ : Type} (lib : Lib ρ σ) (cfg : params)
    (hreq : cfg.RequireAuth = true) (huser : cfg.User ≠ "") (hpass : cfg.Password ≠ "") :
    ∃ conf creds, builtConfig (mainServer lib cfg) = some conf ∧
      conf.AuthMethods = [Authenticator.UserPassAuthenticator creds] ∧
      creds = [(cfg.User, cfg.Password)] ∧
      ∀ user, creds.get user = if user = cfg.User then some cfg.Password else none := by
  have hstart : ¬ (cfg.RequireAuth = true ∧ (cfg.User = "" ∨ cfg.Password = "")) := by
    rintro ⟨_, h | h⟩
    · exact huser h
    · exact hpass h
  rw [mainServer_eq_mainFromRules lib cfg hstart, if_pos hreq]
  refine ⟨_, [(cfg.User, cfg.Password)], builtConfig_mainFromRules lib cfg _ [] rfl, ?_, rfl, ?_⟩
  · split <;> rfl
  · intro user
    by_cases hu : user = cfg.User
    · simp [StaticCredentials.get, hu]
    · have hu2 : ¬ cfg.User = user := fun h => hu h.symm
      simp [StaticCredentials.get, hu, hu2]

/-- C2 amended, on the scenario of the specification: the only method is
username/password with the store `alice ↦ secret`. -/
theorem C2_userpass_only_when_required_witness :
    ∃ conf creds, builtConfig (mainServer demoLib demoCfg) = some conf ∧
      conf.AuthMethods = [Authenticator.UserPassAuthenticator creds] ∧
      creds = [("alice", "secret")] ∧
      ∀ user, creds.get user = if user = "alice" then some "secret" else none :=
  C2_userpass_only_when_required demoLib demoCfg (by decide) (by decide) (by decide)

/-- C3: when `RequireAuth` is false, whatever `User` and `Password` are, `main`
builds a configuration and its `AuthMethods` is empty. -/
theorem C3_no_authenticator_when_not_required {ρ σ : Type} (lib : Lib ρ σ) (cfg : params)
    (hreq : cfg.RequireAuth = false) :
    ∃ conf, builtConfig (mainServer lib cfg) = some conf ∧ conf.AuthMethods = [] := by
  have hstart : ¬ (cfg.RequireAuth = true ∧ (cfg.User = "" ∨ cfg.Password = "")) := by
    simp [hreq]
  have hne : ¬ cfg.RequireAuth = true := by simp [hreq]
  rw [mainServer_eq_mainFromRules lib cfg hstart, if_neg hne]
  refine ⟨_, builtConfig_mainFromRules lib cfg _ _ rfl, ?_⟩
  split <;> rfl

/-- C3, with the credentials `(alice, secret)` set and `RequireAuth` false. -/
theorem C3_no_authenticator_when_not_required_witness :
    ∃ conf, builtConfig (mainServer demoLib { demoCfg with RequireAuth := false }) = some conf ∧
      conf.AuthMethods = [] :=
  C3_no_authenticator_when_not_required demoLib { demoCfg with RequireAuth := false } rfl

/-- C9: whenever start-up is not refused, the configuration built by `main`
has no destination rule exactly when `AllowedDestFqdn` is empty, and for a
non-empty `AllowedDestFqdn` its rule is `PermitDestAddrPattern` of that very
string; the rule is the same for every configuration with the same
`AllowedDestFqdn`, whatever `RequireAuth` and the credentials are. -/
theorem C9_destination_rule {ρ σ : Type} (lib : Lib ρ σ) (cfg : params)
    (hstart : ¬ (cfg.RequireAuth = true ∧ (cfg.User = "" ∨ cfg.Password = ""))) :
    ∃ conf, builtConfig (mainServer lib cfg) = some conf ∧
      (conf.Rules = none ↔ cfg.AllowedDestFqdn = "") ∧
      (cfg.AllowedDestFqdn ≠ "" →
        conf.Rules = some (lib.PermitDestAddrPattern cfg.AllowedDestFqdn)) ∧
      ∀ cfg2 : params, cfg2.AllowedDestFqdn = cfg.AllowedDestFqdn →
        ¬ (cfg2.RequireAuth = true ∧ (cfg2.User = "" ∨ cfg2.Password = "")) →
        ∃ conf2, builtConfig (mainServer lib cfg2) = some conf2 ∧ conf2.Rules = conf.Rules := by
  have key : ∀ c : params,
      ¬ (c.RequireAuth = true ∧ (c.User = "" ∨ c.Password = "")) →
      ∃ conf, builtConfig (mainServer lib c) = some conf ∧
        conf.Rules = if c.AllowedDestFqdn ≠ "" then
          some (lib.PermitDestAddrPattern c.AllowedDestFqdn) else none := by
    intro c hc
    rw [mainServer_eq_mainFromRules lib c hc]
    split
    · refine ⟨_, builtConfig_mainFromRules lib c _ [] rfl, ?_⟩
      split <;> rfl
    · refine ⟨_, builtConfig_mainFromRules lib c _ _ rfl, ?_⟩
      split <;> rfl
  obtain ⟨conf, hconf, hrules⟩ := key cfg hstart
  refine ⟨conf, hconf, ?_, ?_, ?_⟩
  · rw [hrules]
    by_cases h : cfg.AllowedDestFqdn = "" <;> simp [h]
  · intro h
    rw [hrules, if_pos h]
  · intro cfg2 hsame hstart2
    obtain ⟨conf2, hconf2, hrules2⟩ := key cfg2 hstart2
    exact ⟨conf2, hconf2, by rw [hrules2, hrules, hsame]⟩

/-- C9, on the scenario of the specification: the rule is that of the pattern
`*.example.com`, and it is the same with authentication switched off. -/
theorem C9_destination_rule_witness :
    ∃ conf, builtConfig (mainServer demoLib demoCfg) = some conf ∧
      (conf.Rules = none ↔ "*.example.com" = "") ∧
      ("*.example.com" ≠ "" → conf.Rules = some "*.example.com") ∧
      ∀ cfg2 : params, cfg2.AllowedDestFqdn = "*.example.com" →
        ¬ (cfg2.RequireAuth = true ∧ (cfg2.User = "" ∨ cfg2.Password = "")) →
        ∃ conf2, builtConfig (mainServer demoLib cfg2) = some conf2 ∧
          conf2.Rules = conf.Rules :=
  C9_destination_rule demoLib demoCfg (by decide)

/-- C7: the address `main` computes is `ListenIP + ":" + Port` for a non-empty
`ListenIP` and `":" + Port` for an empty one; it is the only address `main`
ever hands to `ListenAndServe`, and the one it does hand over when start-up is
not refused and `socks5.New` returns a server; in an environment that sets
neither `PROXY_LISTEN_IP` nor `PROXY_PORT` it is `0.0.0.0:1080`. -/
theorem C7_listen_address {ρ σ : Type} (lib : Lib ρ σ) (cfg : params) :
    (cfg.ListenIP ≠ "" → listenAddr cfg = cfg.ListenIP ++ ":" ++ cfg.Port) ∧
    (cfg.ListenIP = "" → listenAddr cfg = ":" ++ cfg.Port) ∧
    (∀ addr, boundAddr (mainServer lib cfg) = some addr → addr = listenAddr cfg) ∧
    (¬ (cfg.RequireAuth = true ∧ (cfg.User = "" ∨ cfg.Password = "")) →
      (∀ conf, ∃ server, lib.New conf = .ok server) →
      boundAddr (mainServer lib cfg) = some (listenAddr cfg)) ∧
    (∀ env : Env, env "PROXY_LISTEN_IP" = none → env "PROXY_PORT" = none →
      listenAddr (envParse env) = "0.0.0.0:1080") := by
  refine ⟨?_, ?_, ?_, ?_, ?_⟩
  · intro h
    simp [listenAddr, h]
  · intro h
    simp [listenAddr, h]
  · intro addr haddr
    by_cases hstart : cfg.RequireAuth = true ∧ (cfg.User = "" ∨ cfg.Password = "")
    · have hrun : mainServer lib cfg = [Call.FatalNoCredentials] := by
        simp [mainServer, hstart.1, hstart.2]
      rw [hrun] at haddr
      simp [boundAddr] at haddr
    · obtain ⟨conf, hconf, hlisten⟩ := (run_of_started lib cfg hstart)
      cases hnew : lib.New conf with
      | error err =>
        have := run_of_failed_New lib cfg hstart conf err hnew hconf
        rw [this] at haddr
        exact absurd haddr (by simp)
      | ok server =>
        rw [hlisten server hnew] at haddr
        exact (Option.some.inj haddr).symm
  · intro hstart hnew
    obtain ⟨conf, _, hlisten⟩ := (run_of_started lib cfg hstart)
    obtain ⟨server, hserver⟩ := hnew conf
    exact hlisten server hserver
  · intro env hip hport
    simp only [listenAddr, envParse, envGet, hip, hport]
    decide

/-- C7, on the scenario of the specification and on the empty environment. -/
theorem C7_listen_address_witness :
    listenAddr demoCfg = "0.0.0.0:1080" ∧
      boundAddr (mainServer demoLib demoCfg) = some "0.0.0.0:1080" ∧
      listenAddr (envParse emptyEnv) = "0.0.0.0:1080" :=
  ⟨(C7_listen_address demoLib demoCfg).1 (by decide),
    (C7_listen_address demoLib demoCfg).2.2.2.1 (by decide) (fun conf => ⟨(conf, none), rfl⟩),
    (C7_listen_address demoLib demoCfg).2.2.2.2 emptyEnv rfl rfl⟩

/-- A run without a first `SetIPWhitelist` call has no such call at all. -/
theorem not_mem_of_installedWhitelist_none {ρ : Type} (run : List (Call ρ))
    (h : installedWhitelist run = none) (whitelist : List IP) :
    Call.SetIPWhitelist whitelist ∉ run := by
  induction run with
  | nil => simp
  | cons call rest ih =>
    cases call <;> simp_all [installedWhitelist]

/-- The allow-list `main` installs when start-up is not refused and
`socks5.New` returns a server. -/
theorem installedWhitelist_mainServer {ρ σ : Type} (lib : Lib ρ σ) (cfg : params)
    (hstart : ¬ (cfg.RequireAuth = true ∧ (cfg.User = "" ∨ cfg.Password = "")))
    (hnew : ∀ conf, ∃ server, lib.New conf = .ok server) :
    installedWhitelist (mainServer lib cfg) =
      if cfg.AllowedIPs.length > 0 then some (makeWhitelist lib.ParseIP cfg.AllowedIPs)
      else none := by
  rw [mainServer_eq_mainFromRules lib cfg hstart]
  split
  · obtain ⟨server, hserver⟩ := hnew (if cfg.AllowedDestFqdn ≠ "" then
        { AuthMethods := [Authenticator.UserPassAuthenticator [(cfg.User, cfg.Password)]],
          Rules := some (lib.PermitDestAddrPattern cfg.AllowedDestFqdn) }
        else
          { AuthMethods := [Authenticator.UserPassAuthenticator [(cfg.User, cfg.Password)]],
            Rules := none })
    exact installedWhitelist_mainFromRules lib cfg _ [] rfl server hserver
  · obtain ⟨server, hserver⟩ := hnew (if cfg.AllowedDestFqdn ≠ "" then
        { AuthMethods := [], Rules := some (lib.PermitDestAddrPattern cfg.AllowedDestFqdn) }
        else { AuthMethods := [], Rules := none })
    exact installedWhitelist_mainFromRules lib cfg _ [Call.WarnNoAuthentication] rfl
      server hserver

/-- With an empty `AllowedIPs`, `mainFromRules` adds no `SetIPWhitelist` call. -/
theorem installedWhitelist_mainFromRules_nil {ρ σ : Type} (lib : Lib ρ σ) (cfg : params)
    (conf : Config ρ) (done : List (Call ρ)) (hdone : installedWhitelist done = none)
    (hempty : cfg.AllowedIPs = []) :
    installedWhitelist (mainFromRules lib cfg conf done) = none := by
  unfold mainFromRules
  simp only [hempty]
  split
  · simp [installedWhitelist_append, hdone, installedWhitelist]
  · split <;> simp [installedWhitelist_append, hdone, installedWhitelist]

/-- C8: with an empty `AllowedIPs`, `main` calls `SetIPWhitelist` not at all.
With a non-empty one, when start-up is not refused for want of credentials and
`socks5.New` returns a server, `main` installs a list with `len(AllowedIPs)`
entries whose entry `i` is `net.ParseIP(AllowedIPs[i])`, whatever that is (a
nil entry for a string that does not parse), and goes on to listen. -/
theorem C8_source_allow_list {ρ σ : Type} (lib : Lib ρ σ) (cfg : params) :
    (cfg.AllowedIPs = [] →
      installedWhitelist (mainServer lib cfg) = none ∧
        ∀ whitelist, Call.SetIPWhitelist whitelist ∉ mainServer lib cfg) ∧
    (¬ (cfg.RequireAuth = true ∧ (cfg.User = "" ∨ cfg.Password = "")) →
      (∀ conf, ∃ server, lib.New conf = .ok server) →
      (cfg.AllowedIPs ≠ [] →
        ∃ whitelist, installedWhitelist (mainServer lib cfg) = some whitelist ∧
          whitelist.length = cfg.AllowedIPs.length ∧
          ∀ (i : Nat) (h : i < cfg.AllowedIPs.length),
            whitelist[i]? = some (lib.ParseIP (cfg.AllowedIPs.get ⟨i, h⟩))) ∧
      boundAddr (mainServer lib cfg) = some (listenAddr cfg)) := by
  refine ⟨?_, ?_⟩
  · intro hempty
    have hnone : installedWhitelist (mainServer lib cfg) = none := by
      by_cases hstart : cfg.RequireAuth = true ∧ (cfg.User = "" ∨ cfg.Password = "")
      · simp [mainServer, hstart.1, hstart.2, installedWhitelist]
      · rw [mainServer_eq_mainFromRules lib cfg hstart]
        split
        · exact installedWhitelist_mainFromRules_nil lib cfg _ [] rfl hempty
        · exact installedWhitelist_mainFromRules_nil lib cfg _ [Call.WarnNoAuthentication]
            rfl hempty
    exact ⟨hnone, not_mem_of_installedWhitelist_none _ hnone⟩
  · intro hstart hnew
    have hwl := installedWhitelist_mainServer lib cfg hstart hnew
    refine ⟨?_, ?_⟩
    · intro hne
      have hpos : cfg.AllowedIPs.length > 0 := List.length_pos.mpr hne
      refine ⟨cfg.AllowedIPs.map lib.ParseIP, ?_, by simp, ?_⟩
      · rw [hwl, if_pos hpos, makeWhitelist_eq]
      · intro i h
        simp [List.getElem?_map, List.getElem?_eq_getElem h]
    · obtain ⟨conf, _, hlisten⟩ := run_of_started lib cfg hstart
      obtain ⟨server, hserver⟩ := hnew conf
      exact hlisten server hserver

/-- C8, with the allow-list `10.0.0.5, not-an-ip`: two entries are installed,
the second nil, and the server listens; with the empty allow-list no
`SetIPWhitelist` call is made. -/
theorem C8_source_allow_list_witness :
    (∃ whitelist,
      installedWhitelist
        (mainServer demoLib { demoCfg with AllowedIPs := ["10.0.0.5", "not-an-ip"] }) =
          some whitelist ∧
      whitelist.length = 2 ∧
      ∀ (i : Nat) (h : i < 2), whitelist[i]? =
        some (demoParseIP (["10.0.0.5", "not-an-ip"].get ⟨i, h⟩))) ∧
    boundAddr (mainServer demoLib { demoCfg with AllowedIPs := ["10.0.0.5", "not-an-ip"] }) =
      some "0.0.0.0:1080" ∧
    installedWhitelist (mainServer demoLib { demoCfg with AllowedIPs := [] }) = none :=
  ⟨((C8_source_allow_list demoLib { demoCfg with AllowedIPs := ["10.0.0.5", "not-an-ip"] }).2
      (by decide) (fun conf => ⟨(conf, none), rfl⟩)).1 (by decide),
    ((C8_source_allow_list demoLib { demoCfg with AllowedIPs := ["10.0.0.5", "not-an-ip"] }).2
      (by decide) (fun conf => ⟨(conf, none), rfl⟩)).2,
    ((C8_source_allow_list demoLib { demoCfg with AllowedIPs := [] }).1 rfl).1⟩

/-! ## The diagnostic probe -/

/-- The address `runHealthCheck` dials (lines 84-97), whatever the peer does. -/
theorem runHealthCheck_addr (env : Env) (peer : Peer) :
    (runHealthCheck env peer).addr =
      (if Getenv env "PROXY_LISTEN_IP" = "" then "127.0.0.1"
        else Getenv env "PROXY_LISTEN_IP") ++ ":" ++
      (if Getenv env "PROXY_PORT" = "" then "1080" else Getenv env "PROXY_PORT") := by
  unfold runHealthCheck
  simp only []
  repeat' split
  all_goals rfl

/-- C10: when the connection, both writes and every read succeed, the probe
passes (no failure, exit status 0) exactly when `response[0] = 0x05` and either
`response[1] ≠ 0x02`, or `response[1] = 0x02`, `PROXY_USER` and
`PROXY_PASSWORD` are both non-empty and `authResponse[1] = 0x00`; otherwise it
exits with status 1. With `response[1] ≠ 0x02`, and with `response[1] = 0x02`
and an empty user or password, the greeting is the only frame written. -/
theorem C10_health_verdict (env : Env) (peer : Peer) (data authData : List Nat)
    (hdial : ∀ addr, peer.DialTimeout addr = none)
    (hgreeting : peer.WriteGreeting = none)
    (hresponse : peer.ReadResponse = .ok data)
    (hauth : peer.WriteAuth = none)
    (hauthResponse : peer.ReadAuthResponse = .ok authData) :
    ((runHealthCheck env peer).exit = 0 ↔
      ((readInto [0, 0] data).getD 0 0 = 0x05 ∧
        ((readInto [0, 0] data).getD 1 0 ≠ 0x02 ∨
          ((readInto [0, 0] data).getD 1 0 = 0x02 ∧
            Getenv env "PROXY_USER" ≠ "" ∧ Getenv env "PROXY_PASSWORD" ≠ "" ∧
            (readInto [0, 0] authData).getD 1 0 = 0x00)))) ∧
    ((runHealthCheck env peer).exit = 0 ∨ (runHealthCheck env peer).exit = 1) ∧
    ((runHealthCheck env peer).failure = none ↔ (runHealthCheck env peer).exit = 0) ∧
    ((readInto [0, 0] data).getD 1 0 ≠ 0x02 →
      (runHealthCheck env peer).written = [[0x05, 0x02, 0x00, 0x02]]) ∧
    ((readInto [0, 0] data).getD 1 0 = 0x02 →
      (Getenv env "PROXY_USER" = "" ∨ Getenv env "PROXY_PASSWORD" = "") →
      (runHealthCheck env peer).exit = 1 ∧
        (runHealthCheck env peer).written = [[0x05, 0x02, 0x00, 0x02]]) := by
  unfold runHealthCheck
  simp only [hdial, hgreeting, hresponse, hauth, hauthResponse]
  generalize (readInto [0, 0] data).getD 0 0 = version
  generalize (readInto [0, 0] data).getD 1 0 = method
  generalize (readInto [0, 0] authData).getD 1 0 = status
  generalize Getenv env "PROXY_USER" = user
  generalize Getenv env "PROXY_PASSWORD" = password
  by_cases hver : version = 0x05
  · by_cases hmethod : method = 0x02
    · by_cases hu : user = ""
      · simp [hver, hmethod, hu]
      · by_cases hp : password = ""
        · simp [hver, hmethod, hu, hp]
        · by_cases hstatus : status = 0x00
          · simp [hver, hmethod, hu, hp, hstatus]
          · simp [hver, hmethod, hu, hp, hstatus]
    · simp [hver, hmethod]
  · by_cases hmethod : method = 0x02
    · by_cases hu : user = ""
      · simp [hver, hmethod, hu]
      · by_cases hp : password = ""
        · simp [hver, hmethod, hu, hp]
        · simp [hver, hmethod]
    · simp [hver, hmethod]

/-- C10, on a peer that selects "no authentication": the probe passes and
writes the greeting only. -/
theorem C10_health_verdict_witness :
    (runHealthCheck demoEnv demoPeer).exit = 0 ∧
      (runHealthCheck demoEnv demoPeer).written = [[0x05, 0x02, 0x00, 0x02]] :=
  ⟨(C10_health_verdict demoEnv demoPeer [0x05, 0x00] [0x01, 0x00]
      (fun _ => rfl) rfl rfl rfl rfl).1.mpr (by decide),
    (C10_health_verdict demoEnv demoPeer [0x05, 0x00] [0x01, 0x00]
      (fun _ => rfl) rfl rfl rfl rfl).2.2.2.1 (by decide)⟩

/-- C4, at the reply `[0x05, 0xFF]`: the connection, the write and the read
succeed, the handshake did not succeed at protocol level (`0xFF` is none of the
methods offered), and `runHealthCheck` reports no failure and exits with
status 0. -/
theorem C4_no_acceptable_method_passes :
    ¬ handshakeSucceeded (readInto [0, 0] [0x05, 0xFF]) (readInto [0, 0] [0x01, 0x00]) ∧
      (runHealthCheck demoEnv refusingPeer).failure = none ∧
      (runHealthCheck demoEnv refusingPeer).exit = 0 ∧
      (runHealthCheck emptyEnv refusingPeer).exit = 0 := by
  decide

/-- The number of bytes of a string is its `len`. -/
theorem length_bytes (s : String) : (bytes s).length = len s := by
  have h := String.size_toUTF8 s
  simp only [ByteArray.size, Array.size] at h
  simpa [bytes, len] using h

/-- The frame of lines 142-146 has `3 + len(user) + len(password)` bytes. -/
theorem length_authRequest (user password : String) :
    (authRequest user password).length = 3 + len user + len password := by
  simp [authRequest, length_bytes]
  omega

/-- The frame of lines 142-146 decodes to the user and the password when
neither is longer than 255 bytes. -/
theorem decode_authRequest (user password : String)
    (huser : len user ≤ 255) (hpass : len password ≤ 255) :
    decodeAuthRequest (authRequest user password) = some (bytes user, bytes password) := by
  have hu : byte (len user) = (bytes user).length := by
    rw [length_bytes]; unfold byte; omega
  have hp : byte (len password) = (bytes password).length := by
    rw [length_bytes]; unfold byte; omega
  simp only [authRequest, hu, hp, List.cons_append, List.nil_append, List.append_assoc,
    decodeAuthRequest]
  simp

set_option maxRecDepth 100000 in
/-- C5, at a user name of 256 bytes: both credentials are non-empty, the probe
writes the frame built by lines 142-146 after the greeting, the `ULEN` byte of
that frame is `0` and not the length of the user, and the frame does not decode
by the layout of the specification. -/
theorem C5_long_user_frame_malformed :
    Getenv longUserEnv "PROXY_USER" ≠ "" ∧ Getenv longUserEnv "PROXY_PASSWORD" ≠ "" ∧
      len (Getenv longUserEnv "PROXY_USER") = 256 ∧
      (runHealthCheck longUserEnv authPeer).written =
        [[0x05, 0x02, 0x00, 0x02], authRequest longUser "p"] ∧
      (authRequest longUser "p").getD 1 0 = 0 ∧
      (authRequest longUser "p").length = 3 + 256 + 1 ∧
      decodeAuthRequest (authRequest longUser "p") = none := by
  decide

/-- C6, as the specification states it, fails: in an environment that sets the
credentials and neither `PROXY_LISTEN_IP` nor `PROXY_PORT`, `main` listens on
`0.0.0.0:1080` and the probe dials `127.0.0.1:1080`. -/
theorem C6_counterexample :
    boundAddr (mainServer demoLib (envParse credentialsEnv)) = some "0.0.0.0:1080" ∧
      listenAddr (envParse credentialsEnv) = "0.0.0.0:1080" ∧
      (runHealthCheck credentialsEnv demoPeer).addr = "127.0.0.1:1080" ∧
      (runHealthCheck credentialsEnv demoPeer).addr ≠ listenAddr (envParse credentialsEnv) := by
  decide

/-- C6, amended: in every environment in which `PROXY_PORT` is not set to the
empty string, the probe dials the port `main` listens on; the host it dials is
the configured listen address when `PROXY_LISTEN_IP` is set and non-empty, so
that the address dialled is then the `listenAddr` of `main`, and the loopback
address `127.0.0.1` when `PROXY_LISTEN_IP` is unset or empty. -/
theorem C6_probe_dials_listen_address (env : Env) (peer : Peer)
    (hport : env "PROXY_PORT" ≠ some "") :
    (∀ ip, env "PROXY_LISTEN_IP" = some ip → ip ≠ "" →
      (runHealthCheck env peer).addr = listenAddr (envParse env)) ∧
    ((env "PROXY_LISTEN_IP" = none ∨ env "PROXY_LISTEN_IP" = some "") →
      (runHealthCheck env peer).addr = "127.0.0.1" ++ ":" ++ (envParse env).Port) := by
  have hp : (if Getenv env "PROXY_PORT" = "" then "1080" else Getenv env "PROXY_PORT") =
      (envParse env).Port := by
    cases h : env "PROXY_PORT" with
    | none => simp [Getenv, envParse, envGet, h]
    | some port =>
      have hne : port ≠ "" := fun hp => hport (by rw [h, hp])
      simp [Getenv, envParse, envGet, h, hne]
  rw [runHealthCheck_addr, hp]
  constructor
  · intro ip hip hne
    simp [Getenv, listenAddr, envParse, envGet, hip, hne]
  · rintro (hip | hip)
    · simp [Getenv, hip]
    · simp [Getenv, hip]

/-- C6 amended, in an environment that sets `PROXY_LISTEN_IP` to `10.0.0.5` and
`PROXY_PORT` to `1080`. -/
theorem C6_probe_dials_listen_address_witness :
    (runHealthCheck demoEnv demoPeer).addr = listenAddr (envParse demoEnv) :=
  (C6_probe_dials_listen_address demoEnv demoPeer (by decide)).1 "10.0.0.5" (by decide)
    (by decide)

end Socks5Server
